import Mathlib

/-!
Verification development for the slider_verify repository.

The definitions below are a shallow embedding of the decision logic of the
remote-VM verification tool:
* string parsing of the vision-oracle replies (llm_client.py),
* the command-output error classifier and the lock-screen check
  (vm_automation.py, run_powershell_interactive / run_powershell_command),
* the login-verdict interpretation cascade (vm_automation.py, login_windows),
* the login-screen polling loop, field detection fallbacks and the
  displayed-username check (vm_automation.py, login_windows),
* the bounded retry loops of the four retried operations (vm_automation.py),
* the orchestrator that sequences the steps, filters the screenshot list for
  the report and always tears the VM down (main.py, VerificationOrchestrator).

Mutable state (the screenshot list and the action log held on the VMAutomation
object) is threaded explicitly as an AutoState value; the vision oracle is
modelled as a script assigning a structured verdict (or none, when no LLM
client is configured or the verification call failed) to each query the code
makes.  Wall-clock sleeps are irrelevant to the claims and are not modelled.
-/

namespace SliderVerify

/-- Bool-valued substring test on character lists: does pat occur inside l?
Mirrors the semantics of the Python expression pat in s (the empty pattern
occurs in every string). -/
def subListOf (pat : List Char) : List Char → Bool
  | [] => pat.isEmpty
  | c :: rest => pat.isPrefixOf (c :: rest) || subListOf pat rest

/-- Python needle in hay on strings. -/
def py_in (needle hay : String) : Bool :=
  subListOf needle.toList hay.toList

/-- Python s.upper() for the ASCII range, written on the character list so
that it evaluates by reduction (the library toUpper is extensionally the
same map of Char.toUpper over the characters). -/
def py_upper (s : String) : String :=
  String.mk (s.data.map Char.toUpper)

/-- Python s.lower() for the ASCII range, on the character list. -/
def py_lower (s : String) : String :=
  String.mk (s.data.map Char.toLower)

/-- Python s.strip(): drop leading and trailing whitespace. -/
def py_strip (s : String) : String :=
  String.mk (((s.data.dropWhile Char.isWhitespace).reverse.dropWhile
    Char.isWhitespace).reverse)

/-- Python s[:n]: the first n characters. -/
def py_take (s : String) (n : Nat) : String :=
  String.mk (s.data.take n)

/-- Splitting a character list at every occurrence of sep; the accumulator
holds the current piece reversed. -/
def split_char_aux (sep : Char) : List Char → List Char → List (List Char)
  | [], acc => [acc.reverse]
  | c :: rest, acc =>
    if c == sep then acc.reverse :: split_char_aux sep rest []
    else split_char_aux sep rest (c :: acc)

/-- Python s.split(sep) for a one-character separator (the source only ever
splits on a newline, a colon or a backslash). -/
def py_split (sep : Char) (s : String) : List String :=
  (split_char_aux sep s.data []).map String.mk

/-- Everything after the first colon of the character list, or none when
there is no colon. -/
def after_first_colon : List Char → Option (List Char)
  | [] => none
  | c :: rest => if c == ':' then some rest else after_first_colon rest

/-- Python s.split(sep, 1)[1] for sep a colon: everything after the first
colon, or none when the string has no colon.  Used by the oracle-reply
parsers, which always call it on lines already known to contain a colon. -/
def split_once_rest (s : String) : Option String :=
  (after_first_colon s.data).map String.mk

/-- Structured oracle answer for a state check
(llm_client.py, verify_ui_state): verified flag, confidence string,
free-text description.  The raw_response field of the Python dict is the
input string itself and is not repeated here. -/
structure Verdict where
  verified : Bool
  confidence : String
  description : String
deriving DecidableEq, Repr

/-- One elif branch of the reply parser of verify_ui_state
(llm_client.py lines 182-191), applied to one (already upper-cased) line. -/
def verify_line_fold (r : Verdict) (line : String) : Verdict :=
  if py_in "VERIFIED:" line then
    { r with verified := py_in "YES" line }
  else if py_in "CONFIDENCE:" line then
    match split_once_rest line with
    | some rest =>
      let conf := py_lower (py_strip rest)
      if conf == "high" || conf == "medium" || conf == "low" then
        { r with confidence := conf }
      else r
    | none => r
  else if py_in "DESCRIPTION:" line then
    match split_once_rest line with
    | some rest => { r with description := py_strip rest }
    | none => r
  else r

/-- verify_ui_state reply parsing (llm_client.py lines 174-191): the result
starts from the defaults verified=false, confidence=low, description=raw
reply, then each labelled line of the upper-cased reply overwrites its own
field. -/
def verify_ui_state_parse (response : String) : Verdict :=
  (py_split (Char.ofNat 10) (py_upper response)).foldl verify_line_fold
    { verified := false, confidence := "low", description := response }

/-- Result of login-field detection (llm_client.py, detect_login_fields). -/
structure FieldDetection where
  has_username : Bool
  has_password : Bool
  displayed_username : Option String
  description : String
deriving DecidableEq, Repr

/-- One elif branch of the detect_login_fields reply parser
(llm_client.py lines 268-279); each line is upper-cased for the label test
while field values are taken from the original line. -/
def detect_line_fold (r : FieldDetection) (line : String) : FieldDetection :=
  let lu := py_upper line
  if py_in "USERNAME_FIELD:" lu || py_in "USERNAME FIELD:" lu then
    { r with has_username := py_in "YES" lu }
  else if py_in "PASSWORD_FIELD:" lu || py_in "PASSWORD FIELD:" lu then
    { r with has_password := py_in "YES" lu }
  else if py_in "DISPLAYED_USERNAME:" lu || py_in "DISPLAYED USERNAME:" lu then
    let username := match split_once_rest line with
      | some rest => py_strip rest
      | none => ""
    { r with displayed_username :=
        if py_lower username == "none" then none else some username }
  else if py_in "DESCRIPTION:" lu then
    { r with description := match split_once_rest line with
        | some rest => py_strip rest
        | none => "" }
  else r

/-- detect_login_fields reply parsing (llm_client.py lines 259-284): defaults
are has_username=false, has_password=false, displayed_username=none,
description empty; when no DESCRIPTION line was parsed the first 200
characters of the raw reply are used as the description. -/
def detect_login_fields_parse (response : String) : FieldDetection :=
  let parsed := (py_split (Char.ofNat 10) response).foldl detect_line_fold
    { has_username := false, has_password := false
      displayed_username := none, description := "" }
  if parsed.description == "" then
    { parsed with description := py_take response 200 }
  else parsed

/-- Negation phrases checked first by the command-output classifier
(vm_automation.py lines 1056-1062 and, identically, 849-855). -/
def negation_phrases : List String :=
  ["NO RED", "NO ERROR", "NO ERRORS", "WITHOUT ERROR", "WITHOUT RED"]

/-- Error indicators of the command-output classifier
(vm_automation.py lines 1069-1080 and, identically, 862-873). -/
def error_indicators : List String :=
  ["RED TEXT", "RED ERROR", "ERROR TEXT IN RED", "ERROR MESSAGE IS DISPLAYED",
   "ERROR MESSAGE IS VISIBLE", "DISPLAYS AN ERROR MESSAGE",
   "SHOWS AN ERROR MESSAGE", "ACCESS IS DENIED", "PERMISSION IS DENIED",
   "THE TERMINAL SHOWS THE ERROR OUTPUT"]

/-- Does any of the phrases occur in d? -/
def contains_any (phrases : List String) (d : String) : Bool :=
  phrases.any (fun p => py_in p d)

/-- The command_has_error computation of run_powershell_interactive
(vm_automation.py lines 1051-1088); run_powershell_command inlines the same
code with the same phrase lists (lines 844-881).  The description is
upper-cased, negation phrases are checked first and suppress every error
indicator. -/
def command_has_error (description : String) : Bool :=
  let d := py_upper description
  if contains_any negation_phrases d then false
  else contains_any error_indicators d

/-- Lock-screen phrases tested against the upper-cased run-dialog description
(vm_automation.py lines 958, 751). -/
def lock_screen_phrases : List String :=
  ["CTRL+ALT+DELETE", "UNLOCK", "LOCK SCREEN"]

/-- The lock-screen test of the command protocol: the Python code writes it
as an or-chain of three membership tests on the upper-cased description. -/
def lock_screen_detected (d : String) : Bool :=
  contains_any lock_screen_phrases d

/-- The post-submit login-verdict interpretation of login_windows
(vm_automation.py lines 453-498), as the Python elif cascade: ok means
login_verified is set, error carries the message of the VMAutomationError
raised by the failing branch.  The description is upper-cased once
(line 458); the confidence default low of line 457 is supplied by the
callers of this function (a parsed verdict always carries a confidence). -/
def interpret_login_verdict (v : Verdict) : Except String Unit :=
  if v.verified then .ok ()
  else if py_in "SHUTDOWN EVENT TRACKER" (py_upper v.description)
       || py_in "SHUTDOWN" (py_upper v.description) then .ok ()
  else if py_in "DESKTOP" (py_upper v.description)
       && py_in "TASKBAR" (py_upper v.description) then .ok ()
  else if py_in "STILL ON LOGIN" (py_upper v.description)
       || py_in "SHOWING LOGIN" (py_upper v.description)
       || py_in "AT LOGIN SCREEN" (py_upper v.description) then
    .error ("Login FAILED - Still on login screen. AI saw: " ++ py_upper v.description)
  else if py_in "INCORRECT PASSWORD" (py_upper v.description)
       || py_in "PASSWORD INCORRECT" (py_upper v.description)
       || py_in "WRONG PASSWORD" (py_upper v.description) then
    .error ("Login FAILED - Password incorrect. AI saw: " ++ py_upper v.description)
  else if py_in "LOCKED" (py_upper v.description)
       && py_in "SCREEN" (py_upper v.description) then
    .error ("Login FAILED - Screen is locked. AI saw: " ++ py_upper v.description)
  else if v.confidence == "low" || (py_upper v.description == "") then .ok ()
  else
    .error ("Login FAILED - AI verification did not detect Windows desktop. AI saw: "
            ++ py_upper v.description)

/-- Boolean view of the verdict cascade: true exactly when login_windows sets
login_verified instead of raising. -/
def login_verdict_accepted (v : Verdict) : Bool :=
  match interpret_login_verdict v with
  | .ok _ => true
  | .error _ => false

/-- Spec-side benign phrases: the recognised post-restore dialog and a
desktop with taskbar count as success even without an explicit verified
flag. -/
def benign_phrase (d : String) : Bool :=
  (py_in "SHUTDOWN EVENT TRACKER" d || py_in "SHUTDOWN" d)
  || (py_in "DESKTOP" d && py_in "TASKBAR" d)

/-- Spec-side failure phrases: still on the login screen, incorrect
password, or a locked screen. -/
def failure_phrase (d : String) : Bool :=
  (py_in "STILL ON LOGIN" d || py_in "SHOWING LOGIN" d || py_in "AT LOGIN SCREEN" d)
  || (py_in "INCORRECT PASSWORD" d || py_in "PASSWORD INCORRECT" d || py_in "WRONG PASSWORD" d)
  || (py_in "LOCKED" d && py_in "SCREEN" d)

/-- The login verdict as the spec phrases it: a priority-ordered rule set.
Explicit verified wins; otherwise benign phrases mean success; otherwise
failure phrases mean failure; otherwise low confidence or an empty
description defaults to success; every remaining case fails. -/
def login_verdict_spec_order (v : Verdict) : Bool :=
  if v.verified then true
  else if benign_phrase (py_upper v.description) then true
  else if failure_phrase (py_upper v.description) then false
  else if v.confidence == "low" || (py_upper v.description == "") then true
  else false

/-- One entry of the action log (vm_automation.py, _log_action); the
timestamp field of the Python dict carries no decision content and is not
modelled. -/
structure ActionEntry where
  action : String
  details : String
deriving DecidableEq, Repr

/-- The mutable collections held on the VMAutomation object: the screenshot
list (file paths, modelled by their label names) and the action log. -/
structure AutoState where
  screenshots : List String
  action_log : List ActionEntry
deriving DecidableEq, Repr

/-- _capture_screenshot (vm_automation.py lines 1459-1505): appends the new
path to the screenshot list.  The companion oracle verdict is supplied by
the per-call scripts of the operations below; the failure branch of the
Python function appends nothing and is subsumed by the append-only results
proved later. -/
def capture (st : AutoState) (name : String) : AutoState :=
  { st with screenshots := st.screenshots ++ [name] }

/-- _log_action (vm_automation.py lines 1507-1521): appends one entry to the
action log. -/
def log_action (st : AutoState) (action details : String) : AutoState :=
  { st with action_log := st.action_log ++ [⟨action, details⟩] }

/-- connect_to_vm (vm_automation.py lines 94-123), success path: navigates
and takes the initial screenshot. -/
def connect_to_vm (st : AutoState) : AutoState :=
  capture st "01_novnc_connected"

/-- wait_for_windows_desktop (vm_automation.py lines 125-144): sleeps for the
boot delay and takes a screenshot. -/
def wait_for_windows_desktop (st : AutoState) : AutoState :=
  capture st "02_windows_desktop"

/-- Result of the login-screen polling loop: final state, whether the login
screen was confirmed, the number of polls performed, and (as instrumentation
of the branch at vm_automation.py line 179) the poll numbers at which the
Ctrl+Alt+Del wake gesture was sent. -/
structure WaitOut where
  state : AutoState
  ready : Bool
  polls : Nat
  wakes : List Nat
deriving Repr

/-- The login-screen polling loop of login_windows (vm_automation.py lines
170-205).  sc gives the oracle verdict of poll k (none when no LLM client is
available, in which case the code assumes the screen is ready and stops).
The loop head increments the attempt counter, sends the wake gesture on the
first poll and on every poll divisible by 3 (logging it), captures a
screenshot, and stops on a positive verdict.  fuel is the number of loop
iterations still allowed (max_attempts minus polls already made), so the
while condition attempts < max_attempts is fuel > 0. -/
def login_wait_aux (sc : Nat → Option Verdict) : Nat → Nat → AutoState → WaitOut
  | 0, att, st => { state := st, ready := false, polls := att, wakes := [] }
  | fuel + 1, att, st =>
    let attempt := att + 1
    let wake := attempt == 1 || attempt % 3 == 0
    let st1 := if wake then log_action st "Send Ctrl+Alt+Del" "Bringing up login screen" else st
    let st2 := capture st1 ("03_login_screen_check_" ++ toString attempt)
    match sc attempt with
    | some v =>
      if v.verified then
        { state := st2, ready := true, polls := attempt
          wakes := if wake then [attempt] else [] }
      else
        let r := login_wait_aux sc fuel attempt st2
        { r with wakes := (if wake then [attempt] else []) ++ r.wakes }
    | none =>
      { state := st2, ready := true, polls := attempt
        wakes := if wake then [attempt] else [] }

/-- The polling loop entered with attempts = 0 and
max_attempts = max_wait_for_login_screen // 10 iterations available. -/
def login_screen_wait (sc : Nat → Option Verdict) (maxAttempts : Nat) (st : AutoState) : WaitOut :=
  login_wait_aux sc maxAttempts 0 st

/-- Domain-prefix stripping (vm_automation.py lines 235-236):
u.split(backslash)[-1] when the name contains a backslash, else u itself. -/
def strip_domain (u : String) : String :=
  if py_in "\\" u then (py_split (Char.ofNat 92) u).getLastD u else u

/-- The case-insensitive username comparison after prefix stripping
(vm_automation.py line 239). -/
def username_matches (displayed target : String) : Bool :=
  py_lower (strip_domain displayed) == py_lower (strip_domain target)

/-- The conservative fallback of login_windows (vm_automation.py lines
220-224): when field detection returned an empty description or found
neither field, assume the password-only layout. -/
def apply_field_fallback (fd : FieldDetection) : FieldDetection :=
  if fd.description == "" || (!fd.has_username && !fd.has_password) then
    { has_username := false, has_password := true
      displayed_username := none, description := "Fallback: password only" }
  else fd

/-- Oracle scripts consumed by one login_windows call: has_llm models whether
an LLM client was passed to VMAutomation; login_screen is the per-poll
verdict; fields and fields_after_switch are the detect_login_fields results
before and after a user-switch attempt; login_verify is the post-submit
verdict (none when the verification call itself failed). -/
structure LoginScripts where
  has_llm : Bool
  login_screen : Nat → Option Verdict
  fields : FieldDetection
  fields_after_switch : FieldDetection
  login_verify : Option Verdict

/-- The displayed-username block of login_windows (vm_automation.py lines
229-301).  When a displayed username is present (Python truthiness: some and
non-empty) and matches the target after domain stripping, the detection is
replaced by a forced password-only record and nothing else happens; on a
mismatch the code presses Escape, clicks the candidate locations, captures
the 03b/03c screenshots and re-runs field detection (assuming both fields
when no LLM is available), proceeding with whatever it finds. -/
def resolve_displayed_user (S : LoginScripts) (username : String)
    (fd : FieldDetection) (st : AutoState) : AutoState × FieldDetection :=
  match fd.displayed_username with
  | some du =>
    if du == "" then (st, fd)
    else if username_matches du username then
      (st, { has_username := false, has_password := true
             displayed_username := some du
             description := "Cached user matches: " ++ du })
    else
      let st1 := capture st "03b_before_other_user_click"
      let st2 := capture st1 "03c_after_other_user_click"
      let fd1 := if S.has_llm then S.fields_after_switch
        else { has_username := true, has_password := true
               displayed_username := none, description := "After switch: both fields" }
      (st2, fd1)
  | none => (st, fd)

/-- Credential entry (vm_automation.py lines 307-432): password-only when
only the password field is present, otherwise username then password; only
the logged actions matter to the claims, the keystrokes themselves carry no
decision content. -/
def enter_credentials (username : String) (fd : FieldDetection) (st : AutoState) : AutoState :=
  if !fd.has_username && fd.has_password then
    log_action st "Enter password" "Typing password (username cached)"
  else
    log_action (log_action st "Enter username" ("Typing username: " ++ username))
      "Enter password" "Typing password"

/-- The phase of login_windows that runs once the login screen is confirmed
(vm_automation.py lines 211-537): detect fields (password-only defaults
without an LLM or on an empty detection), handle the displayed username,
enter credentials, submit, then interpret the post-submit verdict; on
success the screen-lock disable block runs (no log entries) and the
04_logged_in screenshot is taken. -/
def login_submit_phase (S : LoginScripts) (username : String)
    (stw : AutoState) : AutoState × Except String Unit :=
  let fd0 :=
    if S.has_llm then apply_field_fallback S.fields
    else { has_username := false, has_password := true
           displayed_username := none, description := "No LLM: password only" }
  let (st1, fd1) := resolve_displayed_user S username fd0 stw
  let st2 := enter_credentials username fd1 st1
  let st3 := capture st2 "04_login_verify"
  match (if S.has_llm then S.login_verify else none) with
  | some v =>
    match interpret_login_verdict v with
    | .ok _ => (capture st3 "04_logged_in", .ok ())
    | .error e => (st3, .error e)
  | none => (capture st3 "04_logged_in", .ok ())

/-- login_windows (vm_automation.py lines 146-544).  Returns the final
automation state together with ok on a verified login or the message of the
VMAutomationError raised on failure (the except clause at line 538 re-raises
it unchanged).  First the login-screen polling loop runs (the per-poll
verdict is none when no LLM client is available); a timeout raises, and
otherwise the submit phase decides the outcome. -/
def login_windows (S : LoginScripts) (username : String) (maxWait : Nat)
    (st : AutoState) : AutoState × Except String Unit :=
  let maxAttempts := maxWait / 10
  let w := login_screen_wait (fun k => if S.has_llm then S.login_screen k else none) maxAttempts st
  if !w.ready then
    (w.state, .error "Login screen did not appear - cannot proceed with verification")
  else
    login_submit_phase S username w.state

/-- Oracle script for one attempt of the command protocol: the run-dialog
verdict and the command-output verdict (none models a missing LLM client or
a failed verification call).  The PowerShell-prompt verification between the
two is informational only (vm_automation.py lines 1014-1021) and affects no
control flow; its screenshot capture is still modelled. -/
structure AttemptScript where
  run_dialog : Option Verdict
  output : Option Verdict

/-- One loop body plus retry control of run_powershell_interactive
(vm_automation.py lines 920-1129), threaded over the automation state.
Per attempt: log and open the run dialog, capture and verify it (a detected
lock screen returns failure immediately; an unverified dialog consumes the
attempt), type cmd.exe, launch PowerShell, capture the prompt, log and type
the command, capture and classify the output; a classified error consumes
the attempt, otherwise the attempt succeeds.  The except handler of the
Python loop follows the same consume-or-fail shape and raises nothing past
the function.  fuel = max_retries - attempt + 1 mirrors the range bound.
Returns final state, success and the number of the last attempt made. -/
def run_ps_interactive_aux (sc : Nat → AttemptScript) (maxRetries : Nat) (cmd : String) :
    Nat → Nat → AutoState → AutoState × Bool × Nat
  | 0, att, st => (st, false, att - 1)
  | fuel + 1, attempt, st =>
    let st1 := log_action st "Open Run dialog" "Pressing Win+R"
    let st2 := capture st1 ("09_run_dialog_opened_attempt" ++ toString attempt)
    let a := sc attempt
    let proceed : Bool :=
      match a.run_dialog with
      | some v => v.verified
      | none => true
    let locked : Bool :=
      match a.run_dialog with
      | some v => lock_screen_detected (py_upper v.description)
      | none => false
    if locked then (st2, false, attempt)
    else if !proceed then
      if attempt < maxRetries then run_ps_interactive_aux sc maxRetries cmd fuel (attempt + 1) st2
      else (st2, false, attempt)
    else
      let st3 := capture st2 ("09_run_dialog_typed_cmd_attempt" ++ toString attempt)
      let st4 := capture st3 ("09_cmd_window_opened_attempt" ++ toString attempt)
      let st5 := log_action st4 "Launch PowerShell from cmd" "Typing powershell.exe in cmd"
      let st6 := capture st5 ("09_powershell_prompt_ready_attempt" ++ toString attempt)
      let st7 := log_action st6 ("Execute command: " ++ cmd) "Typing command in PowerShell"
      let st8 := capture st7 ("10_powershell_interactive_output_attempt" ++ toString attempt)
      let hasErr : Bool :=
        match a.output with
        | some v => command_has_error v.description
        | none => false
      if hasErr then
        if attempt < maxRetries then run_ps_interactive_aux sc maxRetries cmd fuel (attempt + 1) st8
        else (st8, false, attempt)
      else (st8, true, attempt)

/-- run_powershell_interactive: the attempt loop for attempt in
range(1, max_retries + 1); with max_retries = 0 the loop body never runs and
the trailing return False of line 1129 is reached after zero attempts. -/
def run_powershell_interactive (sc : Nat → AttemptScript) (maxRetries : Nat)
    (cmd : String) (st : AutoState) : AutoState × Bool × Nat :=
  if maxRetries == 0 then (st, false, 0)
  else run_ps_interactive_aux sc maxRetries cmd maxRetries 1 st

/-- run_powershell_command (vm_automation.py lines 713-918): the same
dialog-launch-classify attempt loop as run_powershell_interactive with the
same lock-screen check, phrase lists and retry control (only screenshot
names and log text differ); modelled without state threading since the
orchestrator of main.py invokes only the interactive variant.  Returns
success and the number of the last attempt made. -/
def run_ps_command_aux (sc : Nat → AttemptScript) (maxRetries : Nat) :
    Nat → Nat → Bool × Nat
  | 0, att => (false, att - 1)
  | fuel + 1, attempt =>
    let a := sc attempt
    let proceed : Bool :=
      match a.run_dialog with
      | some v => v.verified
      | none => true
    let locked : Bool :=
      match a.run_dialog with
      | some v => lock_screen_detected (py_upper v.description)
      | none => false
    if locked then (false, attempt)
    else if !proceed then
      if attempt < maxRetries then run_ps_command_aux sc maxRetries fuel (attempt + 1)
      else (false, attempt)
    else
      let hasErr : Bool :=
        match a.output with
        | some v => command_has_error v.description
        | none => false
      if hasErr then
        if attempt < maxRetries then run_ps_command_aux sc maxRetries fuel (attempt + 1)
        else (false, attempt)
      else (true, attempt)

/-- run_powershell_command entry point. -/
def run_powershell_command (sc : Nat → AttemptScript) (maxRetries : Nat) : Bool × Nat :=
  if maxRetries == 0 then (false, 0)
  else run_ps_command_aux sc maxRetries maxRetries 1

/-- open_services_manager (vm_automation.py lines 546-620): per attempt the
services window is opened and verified; a verified verdict succeeds, a
missing verdict (no LLM) is assumed successful, an unverified verdict
consumes the attempt.  Screenshot and log side effects are not needed by the
claims about this operation. -/
def open_services_manager_aux (sc : Nat → Option Verdict) (maxRetries : Nat) :
    Nat → Nat → Bool × Nat
  | 0, att => (false, att - 1)
  | fuel + 1, attempt =>
    match sc attempt with
    | some v =>
      if v.verified then (true, attempt)
      else if attempt < maxRetries then open_services_manager_aux sc maxRetries fuel (attempt + 1)
      else (false, attempt)
    | none => (true, attempt)

/-- open_services_manager entry point. -/
def open_services_manager (sc : Nat → Option Verdict) (maxRetries : Nat) : Bool × Nat :=
  if maxRetries == 0 then (false, 0)
  else open_services_manager_aux sc maxRetries maxRetries 1

/-- open_server_manager (vm_automation.py lines 654-711): same verify-or-
retry loop as open_services_manager (the Python bodies differ only in the
UI actions and prompt text). -/
def open_server_manager_aux (sc : Nat → Option Verdict) (maxRetries : Nat) :
    Nat → Nat → Bool × Nat
  | 0, att => (false, att - 1)
  | fuel + 1, attempt =>
    match sc attempt with
    | some v =>
      if v.verified then (true, attempt)
      else if attempt < maxRetries then open_server_manager_aux sc maxRetries fuel (attempt + 1)
      else (false, attempt)
    | none => (true, attempt)

/-- open_server_manager entry point. -/
def open_server_manager (sc : Nat → Option Verdict) (maxRetries : Nat) : Bool × Nat :=
  if maxRetries == 0 then (false, 0)
  else open_server_manager_aux sc maxRetries maxRetries 1

/-- The screenshot filter loop of the orchestrator (main.py lines 409-415
and 464-470): a flag starts false, is set at the first element matching the
predicate, and every element from there on is kept. -/
def include_from_first (pred : String → Bool) (l : List String) : List String :=
  (l.foldl
    (fun (acc : Bool × List String) s =>
      let inc := acc.1 || pred s
      (inc, if inc then acc.2 ++ [s] else acc.2))
    (false, [])).2

/-- Predicate of the login-failure screenshot filter (main.py line 412). -/
def login_fail_shot (s : String) : Bool :=
  py_in "03_login" s || py_in "04_login" s || py_in "04_logged" s

/-- Predicate of the success-path screenshot filter (main.py line 467). -/
def success_shot (s : String) : Bool :=
  py_in "04_logged_in" s || py_in "04_login" s

/-- One recorded step (main.py steps_completed entries); the timestamp field
carries no decision content and is not modelled. -/
structure StepResult where
  step_number : Nat
  description : String
  success : Bool
deriving DecidableEq, Repr

/-- The value _perform_verification returns to run_verification
(main.py lines 422-428, 480-484): completed steps, the screenshot list
selected for the report, the action log, the login_failed flag and the
optional error message. -/
structure VerifResults where
  steps_completed : List StepResult
  screenshots : List String
  action_log : List ActionEntry
  login_failed : Bool
  error : Option String
deriving DecidableEq, Repr

/-- One scripted PowerShell command of the orchestrator run: the literal
command text and the oracle script of its attempts. -/
structure PsCommand where
  cmd : String
  script : Nat → AttemptScript

/-- The PowerShell-command phase of _perform_verification (main.py lines
441-450): each command runs through run_powershell_interactive with the
VMAutomation default max_retries = 2 (main.py constructs VMAutomation
without overriding it) and is recorded as a StepResult whose success is the
returned boolean; a failed command never raises past this loop. -/
def run_ps_commands (cmds : List PsCommand) (st : AutoState)
    (steps : List StepResult) : AutoState × List StepResult :=
  (cmds.enum.foldl
    (fun (acc : AutoState × List StepResult) p =>
      let i := p.1 + 1
      let r := run_powershell_interactive p.2.script 2 p.2.cmd acc.1
      (r.1, acc.2 ++
        [{ step_number := acc.2.length + 1
           description := "Execute PowerShell command " ++ toString i ++ ": " ++ p.2.cmd
           success := r.2.1 }]))
    (st, steps))

/-- _perform_verification (main.py lines 337-484) without custom free-text
steps (custom_steps = None).  Connect and desktop wait are recorded as
successful steps; a login failure is caught, recorded as a failed step and
reported early with the login-phase screenshot filter (falling back to the
whole list when nothing matched); on success the scripted PowerShell
commands run and the screenshot list is filtered from the first 04_logged_in
or 04_login entry onward.  Returns the final automation state alongside the
result so the filtering can be compared with what was collected. -/
def perform_verification (S : LoginScripts) (username : String)
    (loginTimeout : Nat) (cmds : List PsCommand) : AutoState × VerifResults :=
  let st0 : AutoState := { screenshots := [], action_log := [] }
  let st1 := connect_to_vm st0
  let step1 : StepResult := { step_number := 1, description := "Connected to VM via noVNC", success := true }
  let st2 := wait_for_windows_desktop st1
  let step2 : StepResult := { step_number := 2, description := "Windows desktop loaded", success := true }
  match login_windows S username loginTimeout st2 with
  | (st3, .error e) =>
    let step3 : StepResult :=
      { step_number := 3, description := "Login as " ++ username ++ " FAILED", success := false }
    let allShots := st3.screenshots
    let shots := include_from_first login_fail_shot allShots
    (st3,
      { steps_completed := [step1, step2, step3]
        screenshots := if shots.isEmpty then allShots else shots
        action_log := st3.action_log
        login_failed := true
        error := some e })
  | (st3, .ok _) =>
    let step3 : StepResult :=
      { step_number := 3
        description := "Login as " ++ username ++ " ("
          ++ (if S.has_llm then "verified by AI" else "unverified") ++ ")"
        success := true }
    let r4 := run_ps_commands cmds st3 [step1, step2, step3]
    let shots := include_from_first success_shot r4.1.screenshots
    (r4.1,
      { steps_completed := r4.2
        screenshots := shots
        action_log := r4.1.action_log
        login_failed := false
        error := none })

/-- Outcome of one orchestrated run (main.py run_verification return
dicts). -/
structure RunOutcome where
  success : Bool
  login_failed : Bool
  error : Option String
  results : VerifResults
deriving Repr

/-- run_verification (main.py lines 138-259) for a run that reaches the
verification phase: snapshot lookup, VM creation and the noVNC URL fetch are
modelled as succeeding, as in the scenarios of the claims, so vm_id is set.
The login_failed flag of the verification results selects the failure or
success dict; the finally block invokes VM teardown (_cleanup_vm) exactly
once since vm_id is set, whatever the outcome.  Returns the outcome, the
final automation state, and the number of teardown invocations. -/
def run_verification (S : LoginScripts) (username : String)
    (loginTimeout : Nat) (cmds : List PsCommand) : RunOutcome × AutoState × Nat :=
  let r := perform_verification S username loginTimeout cmds
  let outcome :=
    if r.2.login_failed then
      { success := false, login_failed := true
        error := some (r.2.error.getD "Login failed"), results := r.2 }
    else
      { success := true, login_failed := false, error := none, results := r.2 }
  (outcome, r.1, 1)

/-! Helper lemmas. -/

theorem include_from_first_flag_true (pred : String → Bool) :
    ∀ (l : List String) (acc : List String),
      l.foldl
        (fun (acc : Bool × List String) s =>
          let inc := acc.1 || pred s
          (inc, if inc then acc.2 ++ [s] else acc.2))
        (true, acc) = (true, acc ++ l) := by
  intro l
  induction l with
  | nil => intro acc; simp
  | cons s t ih =>
    intro acc
    show List.foldl _ (true, acc ++ [s]) t = (true, acc ++ s :: t)
    rw [ih]
    simp

theorem include_from_first_cons_pos (pred : String → Bool) (s : String)
    (t : List String) (hp : pred s = true) :
    include_from_first pred (s :: t) = s :: t := by
  show (List.foldl _ (pred s, if pred s then [] ++ [s] else []) t).2 = s :: t
  rw [hp, if_pos rfl]
  show (List.foldl _ (true, [s]) t).2 = s :: t
  rw [include_from_first_flag_true]
  rfl

theorem include_from_first_cons_neg (pred : String → Bool) (s : String)
    (t : List String) (hp : pred s = false) :
    include_from_first pred (s :: t) = include_from_first pred t := by
  show (List.foldl _ (pred s, if pred s then [] ++ [s] else []) t).2 = _
  rw [hp]
  rfl

theorem include_from_first_suffix (pred : String → Bool) :
    ∀ l : List String, include_from_first pred l <:+ l := by
  intro l
  induction l with
  | nil => exact List.suffix_rfl
  | cons s t ih =>
    by_cases hp : pred s = true
    · rw [include_from_first_cons_pos pred s t hp]
    · rw [include_from_first_cons_neg pred s t (by simpa using hp)]
      exact ih.trans (List.suffix_cons s t)

theorem capture_if_screenshots_grow (st : AutoState) (c : Prop) [Decidable c]
    (a d n : String) :
    st.screenshots <+: (capture (if c then log_action st a d else st) n).screenshots := by
  split <;> exact ⟨[n], rfl⟩

theorem capture_if_log_grow (st : AutoState) (c : Prop) [Decidable c]
    (a d n : String) :
    st.action_log <+: (capture (if c then log_action st a d else st) n).action_log := by
  split
  · exact ⟨[⟨a, d⟩], rfl⟩
  · exact List.prefix_rfl

theorem login_wait_aux_grow (sc : Nat → Option Verdict) :
    ∀ (fuel att : Nat) (st : AutoState),
      st.screenshots <+: (login_wait_aux sc fuel att st).state.screenshots ∧
      st.action_log <+: (login_wait_aux sc fuel att st).state.action_log := by
  intro fuel
  induction fuel with
  | zero => intro att st; exact ⟨List.prefix_rfl, List.prefix_rfl⟩
  | succ m ih =>
    intro att st
    rcases hsc : sc (att + 1) with _ | v
    · constructor
      · simp only [login_wait_aux, hsc]
        apply capture_if_screenshots_grow
      · simp only [login_wait_aux, hsc]
        apply capture_if_log_grow
    · by_cases hv : v.verified = true
      · constructor
        · simp [login_wait_aux, hsc, hv]
          apply capture_if_screenshots_grow
        · simp [login_wait_aux, hsc, hv]
          apply capture_if_log_grow
      · constructor
        · simp [login_wait_aux, hsc, hv]
          refine List.IsPrefix.trans ?_ (ih (att + 1) _).1
          apply capture_if_screenshots_grow
        · simp [login_wait_aux, hsc, hv]
          refine List.IsPrefix.trans ?_ (ih (att + 1) _).2
          apply capture_if_log_grow

theorem capture_shots_grow (st : AutoState) (n : String) :
    st.screenshots <+: (capture st n).screenshots := ⟨[n], rfl⟩

theorem log_action_log_grow (st : AutoState) (a d : String) :
    st.action_log <+: (log_action st a d).action_log := ⟨[⟨a, d⟩], rfl⟩

theorem run_ps_interactive_aux_grow (sc : Nat → AttemptScript) (maxRetries : Nat)
    (cmd : String) :
    ∀ (fuel att : Nat) (st : AutoState),
      st.screenshots <+: (run_ps_interactive_aux sc maxRetries cmd fuel att st).1.screenshots ∧
      st.action_log <+: (run_ps_interactive_aux sc maxRetries cmd fuel att st).1.action_log := by
  intro fuel
  induction fuel with
  | zero => intro att st; exact ⟨List.prefix_rfl, List.prefix_rfl⟩
  | succ m ih =>
    intro att st
    simp only [run_ps_interactive_aux]
    split
    · constructor
      · simp [capture, log_action]
      · simp [capture, log_action]
    · split
      · split
        · constructor
          · refine List.IsPrefix.trans ?_ (ih (att + 1) _).1
            simp [capture, log_action]
          · refine List.IsPrefix.trans ?_ (ih (att + 1) _).2
            simp [capture, log_action]
        · constructor
          · simp [capture, log_action]
          · simp [capture, log_action]
      · split
        · split
          · constructor
            · refine List.IsPrefix.trans ?_ (ih (att + 1) _).1
              simp [capture, log_action]
            · refine List.IsPrefix.trans ?_ (ih (att + 1) _).2
              simp [capture, log_action]
          · constructor
            · simp [capture, log_action]
            · simp [capture, log_action]
        · constructor
          · simp [capture, log_action]
          · simp [capture, log_action]

theorem resolve_displayed_user_grow (S : LoginScripts) (username : String)
    (fd : FieldDetection) (st : AutoState) :
    st.screenshots <+: (resolve_displayed_user S username fd st).1.screenshots ∧
    st.action_log <+: (resolve_displayed_user S username fd st).1.action_log := by
  rcases h : fd.displayed_username with _ | du
  · simp only [resolve_displayed_user, h]
    exact ⟨List.prefix_rfl, List.prefix_rfl⟩
  · simp only [resolve_displayed_user, h]
    split
    · exact ⟨List.prefix_rfl, List.prefix_rfl⟩
    · split
      · exact ⟨List.prefix_rfl, List.prefix_rfl⟩
      · constructor
        · simp [capture]
        · simp [capture]

theorem enter_credentials_state (username : String) (fd : FieldDetection) (st : AutoState) :
    (enter_credentials username fd st).screenshots = st.screenshots ∧
    st.action_log <+: (enter_credentials username fd st).action_log := by
  unfold enter_credentials
  split
  · exact ⟨rfl, ⟨_, rfl⟩⟩
  · refine ⟨rfl, ?_⟩
    simp [log_action]

theorem prefix_extend {α : Type} {l₁ l₂ : List α} (t : List α) (h : l₁ <+: l₂) :
    l₁ <+: l₂ ++ t := h.trans (List.prefix_append _ _)

theorem login_screen_wait_grow (sc : Nat → Option Verdict) (maxA : Nat) (st : AutoState) :
    st.screenshots <+: (login_screen_wait sc maxA st).state.screenshots ∧
    st.action_log <+: (login_screen_wait sc maxA st).state.action_log :=
  login_wait_aux_grow sc maxA 0 st

theorem login_submit_phase_grow (S : LoginScripts) (username : String) (stw : AutoState) :
    stw.screenshots <+: (login_submit_phase S username stw).1.screenshots ∧
    stw.action_log <+: (login_submit_phase S username stw).1.action_log := by
  unfold login_submit_phase
  rcases hres : resolve_displayed_user S username
      (if S.has_llm then apply_field_fallback S.fields
       else { has_username := false, has_password := true
              displayed_username := none, description := "No LLM: password only" }) stw
    with ⟨st1, fd1⟩
  have hr := resolve_displayed_user_grow S username
    (if S.has_llm then apply_field_fallback S.fields
     else { has_username := false, has_password := true
            displayed_username := none, description := "No LLM: password only" }) stw
  rw [hres] at hr
  have he := enter_credentials_state username fd1 st1
  have hshots : stw.screenshots <+: (enter_credentials username fd1 st1).screenshots := by
    rw [he.1]
    exact hr.1
  have hlog : stw.action_log <+: (enter_credentials username fd1 st1).action_log :=
    hr.2.trans he.2
  simp only [hres]
  rcases hv : (if S.has_llm then S.login_verify else none) with _ | v
  · simp only [hv]
    exact ⟨prefix_extend _ (prefix_extend _ hshots), hlog⟩
  · simp only [hv]
    rcases hi : interpret_login_verdict v with e | u
    · simp only [hi]
      exact ⟨prefix_extend _ hshots, hlog⟩
    · simp only [hi]
      exact ⟨prefix_extend _ (prefix_extend _ hshots), hlog⟩

theorem login_windows_grow (S : LoginScripts) (username : String) (maxWait : Nat)
    (st : AutoState) :
    st.screenshots <+: (login_windows S username maxWait st).1.screenshots ∧
    st.action_log <+: (login_windows S username maxWait st).1.action_log := by
  have hw := login_screen_wait_grow
    (fun k => if S.has_llm then S.login_screen k else none) (maxWait / 10) st
  have hs := login_submit_phase_grow S username
    (login_screen_wait (fun k => if S.has_llm then S.login_screen k else none)
      (maxWait / 10) st).state
  cases hR : (login_screen_wait (fun k => if S.has_llm then S.login_screen k else none)
      (maxWait / 10) st).ready with
  | false =>
    simp only [login_windows, hR, Bool.not_false, if_true]
    exact hw
  | true =>
    simp only [login_windows, hR, Bool.not_true, Bool.false_eq_true, if_false]
    exact ⟨hw.1.trans hs.1, hw.2.trans hs.2⟩

theorem ne_nil_of_prefix_ne_nil {α : Type} {l₁ l₂ : List α} (h : l₁ <+: l₂)
    (h1 : l₁ ≠ []) : l₂ ≠ [] := by
  rcases h with ⟨t, ht⟩
  rw [← ht]
  simp [h1]

theorem login_wait_aux_not_ready (sc : Nat → Option Verdict) :
    ∀ (fuel att : Nat) (st : AutoState),
      (∀ k, att < k → k ≤ att + fuel → ∃ v, sc k = some v ∧ v.verified = false) →
      (login_wait_aux sc fuel att st).ready = false := by
  intro fuel
  induction fuel with
  | zero => intro att st _; rfl
  | succ m ih =>
    intro att st h
    obtain ⟨v, hv, hvf⟩ := h (att + 1) (by omega) (by omega)
    simp only [login_wait_aux, hv, hvf, Bool.false_eq_true, if_false]
    exact ih (att + 1) _ (fun k hk1 hk2 => h k (by omega) (by omega))

theorem login_screen_wait_timeout (sc : Nat → Option Verdict) (m : Nat) (st : AutoState)
    (hneg : ∀ k, 1 ≤ k → k ≤ m + 1 → ∃ v, sc k = some v ∧ v.verified = false) :
    (login_screen_wait sc (m + 1) st).ready = false ∧
    (login_screen_wait sc (m + 1) st).state.action_log ≠ [] ∧
    (login_screen_wait sc (m + 1) st).state.screenshots ≠ [] := by
  obtain ⟨v, hv, hvf⟩ := hneg 1 (by omega) (by omega)
  simp only [login_screen_wait, login_wait_aux, hv, hvf, Bool.false_eq_true, if_false]
  refine ⟨?_, ?_, ?_⟩
  · exact login_wait_aux_not_ready sc m 1 _ (fun k hk1 hk2 => hneg k (by omega) (by omega))
  · refine ne_nil_of_prefix_ne_nil (login_wait_aux_grow sc m 1 _).2 ?_
    simp [capture, log_action]
  · refine ne_nil_of_prefix_ne_nil (login_wait_aux_grow sc m 1 _).1 ?_
    simp [capture, log_action]

theorem login_wait_aux_first_success (sc : Nat → Option Verdict) (N : Nat)
    (hpos : ∃ v, sc N = some v ∧ v.verified = true) :
    ∀ (fuel att : Nat) (st : AutoState),
      att < N → N ≤ att + fuel →
      (∀ k, att < k → k < N → ∃ v, sc k = some v ∧ v.verified = false) →
      (login_wait_aux sc fuel att st).ready = true ∧
      (login_wait_aux sc fuel att st).polls = N ∧
      (login_wait_aux sc fuel att st).wakes
        = (List.range' (att + 1) (N - att)).filter (fun k => k == 1 || k % 3 == 0) := by
  intro fuel
  induction fuel with
  | zero => intro att st h1 h2 _; omega
  | succ m ih =>
    intro att st h1 h2 hneg
    by_cases hatt : att + 1 = N
    · obtain ⟨v, hv, hvt⟩ := hpos
      rw [← hatt] at hv
      have hN : N - att = 1 := by omega
      simp only [login_wait_aux, hv, hvt, if_true, hN, List.range'_one, List.filter_cons,
        List.filter_nil]
      exact ⟨trivial, hatt, trivial⟩
    · obtain ⟨v, hv, hvf⟩ := hneg (att + 1) (by omega) (by omega)
      simp only [login_wait_aux, hv, hvf, Bool.false_eq_true, if_false]
      have hN : N - att = (N - (att + 1)) + 1 := by omega
      rw [hN, List.range'_succ, List.filter_cons]
      cases hw : (att + 1 == 1 || (att + 1) % 3 == 0)
      · have hrec := ih (att + 1)
          (capture st ("03_login_screen_check_" ++ toString (att + 1)))
          (by omega) (by omega) (fun k hk1 hk2 => hneg k (by omega) hk2)
        exact ⟨by simpa using hrec.1, by simpa using hrec.2.1, by simpa using hrec.2.2⟩
      · have hrec := ih (att + 1)
          (capture (log_action st "Send Ctrl+Alt+Del" "Bringing up login screen")
            ("03_login_screen_check_" ++ toString (att + 1)))
          (by omega) (by omega) (fun k hk1 hk2 => hneg k (by omega) hk2)
        refine ⟨by simpa using hrec.1, by simpa using hrec.2.1, ?_⟩
        simpa using congrArg (List.cons (att + 1)) hrec.2.2

theorem open_services_manager_aux_bounds (sc : Nat → Option Verdict) (maxR : Nat)
    (hR : 1 ≤ maxR) :
    ∀ (fuel att : Nat), att + fuel = maxR + 1 → 1 ≤ att →
      1 ≤ (open_services_manager_aux sc maxR fuel att).2 ∧
      (open_services_manager_aux sc maxR fuel att).2 ≤ maxR := by
  intro fuel
  induction fuel with
  | zero =>
    intro att h1 h2
    simp only [open_services_manager_aux]
    omega
  | succ m ih =>
    intro att h1 h2
    rcases hsc : sc att with _ | v
    · simp only [open_services_manager_aux, hsc]
      omega
    · by_cases hv : v.verified = true
      · simp only [open_services_manager_aux, hsc, hv, if_true]
        omega
      · by_cases hlt : att < maxR
        · simp only [open_services_manager_aux, hsc, hv, Bool.false_eq_true, if_false, hlt,
            if_true]
          exact ih (att + 1) (by omega) (by omega)
        · simp only [open_services_manager_aux, hsc, hv, Bool.false_eq_true, if_false, hlt]
          omega

theorem open_server_manager_aux_bounds (sc : Nat → Option Verdict) (maxR : Nat)
    (hR : 1 ≤ maxR) :
    ∀ (fuel att : Nat), att + fuel = maxR + 1 → 1 ≤ att →
      1 ≤ (open_server_manager_aux sc maxR fuel att).2 ∧
      (open_server_manager_aux sc maxR fuel att).2 ≤ maxR := by
  intro fuel
  induction fuel with
  | zero =>
    intro att h1 h2
    simp only [open_server_manager_aux]
    omega
  | succ m ih =>
    intro att h1 h2
    rcases hsc : sc att with _ | v
    · simp only [open_server_manager_aux, hsc]
      omega
    · by_cases hv : v.verified = true
      · simp only [open_server_manager_aux, hsc, hv, if_true]
        omega
      · by_cases hlt : att < maxR
        · simp only [open_server_manager_aux, hsc, hv, Bool.false_eq_true, if_false, hlt,
            if_true]
          exact ih (att + 1) (by omega) (by omega)
        · simp only [open_server_manager_aux, hsc, hv, Bool.false_eq_true, if_false, hlt]
          omega

theorem run_ps_command_aux_bounds (sc : Nat → AttemptScript) (maxR : Nat)
    (hR : 1 ≤ maxR) :
    ∀ (fuel att : Nat), att + fuel = maxR + 1 → 1 ≤ att →
      1 ≤ (run_ps_command_aux sc maxR fuel att).2 ∧
      (run_ps_command_aux sc maxR fuel att).2 ≤ maxR := by
  intro fuel
  induction fuel with
  | zero =>
    intro att h1 h2
    simp only [run_ps_command_aux]
    omega
  | succ m ih =>
    intro att h1 h2
    have hout : ∀ hE : Bool,
        hE = (match (sc att).output with
              | some v => command_has_error v.description
              | none => false) →
        1 ≤ (if hE = true then
              if att < maxR then run_ps_command_aux sc maxR m (att + 1)
              else (false, att)
             else (true, att)).2 ∧
        (if hE = true then
              if att < maxR then run_ps_command_aux sc maxR m (att + 1)
              else (false, att)
             else (true, att)).2 ≤ maxR := by
      intro hE _
      cases hE
      · simp only [Bool.false_eq_true, if_false]
        omega
      · by_cases hlt : att < maxR
        · simp only [if_true, hlt]
          exact ih (att + 1) (by omega) (by omega)
        · simp only [if_true, hlt, if_false]
          omega
    rcases hdlg : (sc att).run_dialog with _ | v
    · simp only [run_ps_command_aux, hdlg, Bool.not_true, Bool.false_eq_true, if_false]
      exact hout _ rfl
    · by_cases hlock : lock_screen_detected (py_upper v.description) = true
      · simp only [run_ps_command_aux, hdlg, hlock, if_true]
        omega
      · have hlf : lock_screen_detected (py_upper v.description) = false := by
          simpa using hlock
        by_cases hver : v.verified = true
        · simp only [run_ps_command_aux, hdlg, hlf, Bool.false_eq_true, if_false, hver,
            Bool.not_true]
          exact hout _ rfl
        · have hvf : v.verified = false := by simpa using hver
          by_cases hlt : att < maxR
          · simp only [run_ps_command_aux, hdlg, hlf, Bool.false_eq_true, if_false, hvf,
              Bool.not_false, if_true, hlt]
            exact ih (att + 1) (by omega) (by omega)
          · simp only [run_ps_command_aux, hdlg, hlf, Bool.false_eq_true, if_false, hvf,
              Bool.not_false, if_true, hlt]
            omega

theorem run_ps_interactive_aux_bounds (sc : Nat → AttemptScript) (maxR : Nat)
    (cmd : String) (hR : 1 ≤ maxR) :
    ∀ (fuel att : Nat) (st : AutoState), att + fuel = maxR + 1 → 1 ≤ att →
      1 ≤ (run_ps_interactive_aux sc maxR cmd fuel att st).2.2 ∧
      (run_ps_interactive_aux sc maxR cmd fuel att st).2.2 ≤ maxR := by
  intro fuel
  induction fuel with
  | zero =>
    intro att st h1 h2
    simp only [run_ps_interactive_aux]
    omega
  | succ m ih =>
    intro att st h1 h2
    have hout : ∀ (hE : Bool) (st8 : AutoState),
        hE = (match (sc att).output with
              | some v => command_has_error v.description
              | none => false) →
        1 ≤ (if hE = true then
              if att < maxR then run_ps_interactive_aux sc maxR cmd m (att + 1) st8
              else (st8, false, att)
             else (st8, true, att)).2.2 ∧
        (if hE = true then
              if att < maxR then run_ps_interactive_aux sc maxR cmd m (att + 1) st8
              else (st8, false, att)
             else (st8, true, att)).2.2 ≤ maxR := by
      intro hE st8 _
      cases hE
      · simp only [Bool.false_eq_true, if_false]
        omega
      · by_cases hlt : att < maxR
        · simp only [if_true, hlt]
          exact ih (att + 1) st8 (by omega) (by omega)
        · simp only [if_true, hlt, if_false]
          omega
    rcases hdlg : (sc att).run_dialog with _ | v
    · simp only [run_ps_interactive_aux, hdlg, Bool.not_true, Bool.false_eq_true, if_false]
      exact hout _ _ rfl
    · by_cases hlock : lock_screen_detected (py_upper v.description) = true
      · simp only [run_ps_interactive_aux, hdlg, hlock, if_true]
        omega
      · have hlf : lock_screen_detected (py_upper v.description) = false := by
          simpa using hlock
        by_cases hver : v.verified = true
        · simp only [run_ps_interactive_aux, hdlg, hlf, Bool.false_eq_true, if_false, hver,
            Bool.not_true]
          exact hout _ _ rfl
        · have hvf : v.verified = false := by simpa using hver
          by_cases hlt : att < maxR
          · simp only [run_ps_interactive_aux, hdlg, hlf, Bool.false_eq_true, if_false, hvf,
              Bool.not_false, if_true, hlt]
            exact ih (att + 1) _ (by omega) (by omega)
          · simp only [run_ps_interactive_aux, hdlg, hlf, Bool.false_eq_true, if_false, hvf,
              Bool.not_false, if_true, hlt]
            omega

theorem run_ps_interactive_always_error (sc : Nat → AttemptScript) (cmd : String)
    (st : AutoState)
    (h : ∀ n, ∃ v w, (sc n).run_dialog = some v ∧ v.verified = true ∧
      lock_screen_detected (py_upper v.description) = false ∧
      (sc n).output = some w ∧ command_has_error w.description = true) :
    (run_powershell_interactive sc 2 cmd st).2 = (false, 2) := by
  obtain ⟨v1, w1, hd1, hv1, hl1, ho1, he1⟩ := h 1
  obtain ⟨v2, w2, hd2, hv2, hl2, ho2, he2⟩ := h 2
  show (run_ps_interactive_aux sc 2 cmd 2 1 st).2 = (false, 2)
  simp [run_ps_interactive_aux, hd1, hv1, hl1, ho1, he1, hd2, hv2, hl2, ho2, he2]

theorem run_ps_interactive_lock (sc : Nat → AttemptScript) (maxR : Nat) (cmd : String)
    (st : AutoState) (v : Verdict) (hR : 1 ≤ maxR)
    (hd : (sc 1).run_dialog = some v)
    (hl : lock_screen_detected (py_upper v.description) = true) :
    (run_powershell_interactive sc maxR cmd st).2 = (false, 1) := by
  obtain ⟨m, rfl⟩ : ∃ m, maxR = m + 1 := ⟨maxR - 1, by omega⟩
  show (run_ps_interactive_aux sc (m + 1) cmd (m + 1) 1 st).2 = (false, 1)
  simp only [run_ps_interactive_aux, hd, hl, if_true]

theorem run_ps_commands_single (cmd : String) (sc : Nat → AttemptScript)
    (st : AutoState) (steps : List StepResult)
    (hrun : (run_powershell_interactive sc 2 cmd st).2.1 = false) :
    (run_ps_commands [⟨cmd, sc⟩] st steps).2
      = steps ++ [{ step_number := steps.length + 1
                    description := "Execute PowerShell command " ++ toString 1 ++ ": " ++ cmd
                    success := false }] := by
  simp [run_ps_commands, hrun]

theorem verify_fold_no_label :
    ∀ (lines : List String) (r : Verdict),
      (lines.all (fun l => !(py_in "VERIFIED:" l) && !(py_in "CONFIDENCE:" l)
        && !(py_in "DESCRIPTION:" l))) = true →
      lines.foldl verify_line_fold r = r := by
  intro lines
  induction lines with
  | nil => intro r _; rfl
  | cons l t ih =>
    intro r h
    simp only [List.all_cons, Bool.and_eq_true, Bool.not_eq_true', and_assoc] at h
    obtain ⟨h1, h2, h3, ht⟩ := h
    rw [List.foldl_cons]
    have hstep : verify_line_fold r l = r := by
      simp only [verify_line_fold, h1, h2, h3, Bool.false_eq_true, if_false]
    rw [hstep]
    exact ih r (by simpa using ht)

theorem detect_fold_no_label :
    ∀ (lines : List String) (r : FieldDetection),
      (lines.all (fun l =>
        !(py_in "USERNAME_FIELD:" (py_upper l)) && !(py_in "USERNAME FIELD:" (py_upper l)) &&
        !(py_in "PASSWORD_FIELD:" (py_upper l)) && !(py_in "PASSWORD FIELD:" (py_upper l)) &&
        !(py_in "DISPLAYED_USERNAME:" (py_upper l)) && !(py_in "DISPLAYED USERNAME:" (py_upper l)) &&
        !(py_in "DESCRIPTION:" (py_upper l)))) = true →
      lines.foldl detect_line_fold r = r := by
  intro lines
  induction lines with
  | nil => intro r _; rfl
  | cons l t ih =>
    intro r h
    simp only [List.all_cons, Bool.and_eq_true, Bool.not_eq_true', and_assoc] at h
    obtain ⟨h1, h2, h3, h4, h5, h6, h7, ht⟩ := h
    rw [List.foldl_cons]
    have hstep : detect_line_fold r l = r := by
      simp only [detect_line_fold, h1, h2, h3, h4, h5, h6, h7, Bool.or_self,
        Bool.false_eq_true, if_false, Bool.or_false]
    rw [hstep]
    exact ih r (by simpa using ht)

/-! Claim theorems. -/

/-- Claim C6: negation phrases are checked before error indicators by the
command-output classifier, so any description containing one of the
case-insensitive negation phrases is classified command_has_error = false
even when an error-indicator substring is also present; in particular a
description containing the words no errors detected yields
command_has_error = false although its upper-casing contains the substring
ERROR. -/
theorem c6_negation_checked_first :
    (∀ d : String, contains_any negation_phrases (py_upper d) = true →
      command_has_error d = false) ∧
    command_has_error "Terminal output is normal, no errors detected" = false ∧
    py_in "ERROR" (py_upper "Terminal output is normal, no errors detected") = true ∧
    command_has_error "RED TEXT appears but overall no errors detected" = false ∧
    contains_any error_indicators
      (py_upper "RED TEXT appears but overall no errors detected") = true := by
  refine ⟨?_, by decide, by decide, by decide, by decide⟩
  intro d hneg
  simp only [command_has_error, hneg, if_true]

/-- Witness for C6: a description carrying both a negation phrase and an
error indicator is classified as error-free. -/
theorem c6_negation_checked_first_witness :
    contains_any negation_phrases
      (py_upper "The command printed RED TEXT but no error occurred") = true ∧
    command_has_error "The command printed RED TEXT but no error occurred" = false :=
  ⟨by decide, c6_negation_checked_first.1 "The command printed RED TEXT but no error occurred"
    (by decide)⟩

/-- Claim C2: after credentials are submitted the login verdict is decided
exactly by the priority order of the spec: explicit verified wins, then the
known-benign phrases, then the known-failure phrases, then the
low-confidence-or-empty optimistic default, and every remaining case fails.
The cascade of login_windows equals the spec-side priority-ordered rule set
on every verdict. -/
theorem c2_login_verdict_priority :
    ∀ v : Verdict, login_verdict_accepted v = login_verdict_spec_order v := by
  intro v
  unfold login_verdict_accepted interpret_login_verdict login_verdict_spec_order
    benign_phrase failure_phrase
  generalize v.verified = b0
  generalize (py_in "SHUTDOWN EVENT TRACKER" (py_upper v.description)
    || py_in "SHUTDOWN" (py_upper v.description)) = g1
  generalize (py_in "DESKTOP" (py_upper v.description)
    && py_in "TASKBAR" (py_upper v.description)) = g2
  generalize (py_in "STILL ON LOGIN" (py_upper v.description)
    || py_in "SHOWING LOGIN" (py_upper v.description)
    || py_in "AT LOGIN SCREEN" (py_upper v.description)) = f1
  generalize (py_in "INCORRECT PASSWORD" (py_upper v.description)
    || py_in "PASSWORD INCORRECT" (py_upper v.description)
    || py_in "WRONG PASSWORD" (py_upper v.description)) = f2
  generalize (py_in "LOCKED" (py_upper v.description)
    && py_in "SCREEN" (py_upper v.description)) = f3
  generalize (v.confidence == "low" || (py_upper v.description == "")) = lw
  cases b0 <;> cases g1 <;> cases g2 <;> cases f1 <;> cases f2 <;> cases f3 <;> cases lw <;> rfl

/-- Claim C8: with displayed username CORP backslash Administrator and
target username administrator, the post-stripping case-insensitive
comparison matches, so the displayed-username block of login_windows forces
the password-only field layout (has_username false, has_password true),
leaves the automation state untouched (no user-switch clicks or screenshots
happen), and records the cached-user description. -/
theorem c8_domain_prefix_match (st : AutoState) (S : LoginScripts)
    (hu hp : Bool) (d : String) :
    username_matches "CORP\\Administrator" "administrator" = true ∧
    resolve_displayed_user S "administrator"
      { has_username := hu, has_password := hp
        displayed_username := some "CORP\\Administrator", description := d } st
      = (st, { has_username := false, has_password := true
               displayed_username := some "CORP\\Administrator"
               description := "Cached user matches: CORP\\Administrator" }) := by
  exact ⟨by decide, rfl⟩

/-- Script of an attempt whose run-dialog verification succeeds while the
command output is classified as an error. -/
def script_output_error : Nat → AttemptScript := fun _ =>
  { run_dialog := some ⟨true, "high", "The Run dialog is open"⟩
    output := some ⟨false, "high", "RED TEXT shows an error"⟩ }

/-- Script of an attempt whose run-dialog screenshot shows the lock
screen. -/
def script_lock_screen : Nat → AttemptScript := fun _ =>
  { run_dialog := some ⟨false, "high", "Press Ctrl+Alt+Delete to unlock the computer"⟩
    output := none }

/-- Claim C7: during the command protocol, a run-dialog description that
indicates a lock screen (Ctrl+Alt+Delete, unlock, or lock screen phrasing)
makes run_powershell_interactive return failure at once: for every retry
budget of at least 1, the operation stops after attempt 1 with result
false, consuming no further retry attempts — the failure is not treated as
retryable. -/
theorem c7_lock_screen_hard_fail (sc : Nat → AttemptScript) (maxR : Nat)
    (cmd : String) (st : AutoState) (v : Verdict) (hR : 1 ≤ maxR)
    (hd : (sc 1).run_dialog = some v)
    (hl : lock_screen_detected (py_upper v.description) = true) :
    (run_powershell_interactive sc maxR cmd st).2 = (false, 1) :=
  run_ps_interactive_lock sc maxR cmd st v hR hd hl

/-- Witness for C7: with five attempts allowed, a lock screen at the run
dialog stops the operation after one attempt. -/
theorem c7_lock_screen_hard_fail_witness :
    (run_powershell_interactive script_lock_screen 5 "Get-Date" ⟨[], []⟩).2 = (false, 1) :=
  c7_lock_screen_hard_fail script_lock_screen 5 "Get-Date" ⟨[], []⟩
    ⟨false, "high", "Press Ctrl+Alt+Delete to unlock the computer"⟩
    (by omega) rfl (by decide)

/-- Claim C4: with maxRetries = 2, a command whose output the oracle
classifies as an error on every attempt is attempted exactly 2 times and
returns failure, which the orchestrator records as a failed StepResult; the
embedded functions are total, so nothing propagates past the orchestrator
loop. -/
theorem c4_always_error_two_attempts (sc : Nat → AttemptScript) (cmd : String)
    (st : AutoState) (steps : List StepResult)
    (h : ∀ n, ∃ v w, (sc n).run_dialog = some v ∧ v.verified = true ∧
      lock_screen_detected (py_upper v.description) = false ∧
      (sc n).output = some w ∧ command_has_error w.description = true) :
    (run_powershell_interactive sc 2 cmd st).2 = (false, 2) ∧
    (run_ps_commands [⟨cmd, sc⟩] st steps).2
      = steps ++ [{ step_number := steps.length + 1
                    description := "Execute PowerShell command " ++ toString 1 ++ ": " ++ cmd
                    success := false }] := by
  have h1 := run_ps_interactive_always_error sc cmd st h
  refine ⟨h1, run_ps_commands_single cmd sc st steps ?_⟩
  rw [h1]

/-- Witness for C4: a scripted oracle that always reports red error text
leads to exactly 2 attempts and a failed recorded step. -/
theorem c4_always_error_two_attempts_witness :
    (run_powershell_interactive script_output_error 2 "Get-Date" ⟨[], []⟩).2 = (false, 2) ∧
    (run_ps_commands [⟨"Get-Date", script_output_error⟩] ⟨[], []⟩ []).2
      = [{ step_number := 1
           description := "Execute PowerShell command " ++ toString 1 ++ ": " ++ "Get-Date"
           success := false }] :=
  c4_always_error_two_attempts script_output_error "Get-Date" ⟨[], []⟩ []
    (fun _ => ⟨⟨true, "high", "The Run dialog is open"⟩,
      ⟨false, "high", "RED TEXT shows an error"⟩, rfl, rfl, by decide, rfl, by decide⟩)

/-- Claim C5 counterexample: a reply carrying only a VERIFIED label — thus
omitting the CONFIDENCE and DESCRIPTION fields — parses with
verified = true, not the blanket default verified = false the claim states;
and detect_login_fields on a fully unparseable reply returns
has_password = false, not the claimed password-only default. -/
theorem c5_counterexample :
    (verify_ui_state_parse "VERIFIED: YES").verified = true ∧
    (detect_login_fields_parse "GIBBERISH").has_password = false := by decide

/-- Claim C5 amended: each omitted labelled field individually keeps its
default, so a verify reply in which no line carries any of the three labels
parses to verified = false, confidence = low with the raw reply as the
description, and parsing is total; a detect reply in which no line carries
any field label parses to has_username = false, has_password = false with
the first 200 characters of the raw reply as description, and the login
protocol fallback then replaces this empty detection with the conservative
password-only default. -/
theorem c5_parse_defaults_amended :
    (∀ r : String,
      ((py_split (Char.ofNat 10) (py_upper r)).all (fun l =>
        !(py_in "VERIFIED:" l) && !(py_in "CONFIDENCE:" l)
          && !(py_in "DESCRIPTION:" l))) = true →
      verify_ui_state_parse r
        = { verified := false, confidence := "low", description := r }) ∧
    (∀ r : String,
      ((py_split (Char.ofNat 10) r).all (fun l =>
        !(py_in "USERNAME_FIELD:" (py_upper l)) && !(py_in "USERNAME FIELD:" (py_upper l)) &&
        !(py_in "PASSWORD_FIELD:" (py_upper l)) && !(py_in "PASSWORD FIELD:" (py_upper l)) &&
        !(py_in "DISPLAYED_USERNAME:" (py_upper l)) &&
        !(py_in "DISPLAYED USERNAME:" (py_upper l)) &&
        !(py_in "DESCRIPTION:" (py_upper l)))) = true →
      detect_login_fields_parse r
        = { has_username := false, has_password := false, displayed_username := none
            description := py_take r 200 } ∧
      apply_field_fallback (detect_login_fields_parse r)
        = { has_username := false, has_password := true, displayed_username := none
            description := "Fallback: password only" }) := by
  constructor
  · intro r h
    unfold verify_ui_state_parse
    rw [verify_fold_no_label _ _ h]
  · intro r h
    have hd : detect_login_fields_parse r
        = { has_username := false, has_password := false, displayed_username := none
            description := py_take r 200 } := by
      unfold detect_login_fields_parse
      rw [detect_fold_no_label _ _ h]
      rfl
    refine ⟨hd, ?_⟩
    rw [hd]
    simp [apply_field_fallback]

/-- Witness for C5: both parsers applied to a reply without any labels. -/
theorem c5_parse_defaults_amended_witness :
    verify_ui_state_parse "completely unlabelled reply"
      = { verified := false, confidence := "low"
          description := "completely unlabelled reply" } ∧
    apply_field_fallback (detect_login_fields_parse "completely unlabelled reply")
      = { has_username := false, has_password := true, displayed_username := none
          description := "Fallback: password only" } :=
  ⟨c5_parse_defaults_amended.1 "completely unlabelled reply" (by decide),
   (c5_parse_defaults_amended.2 "completely unlabelled reply" (by decide)).2⟩

/-- Claim C3 counterexample: with the default maxRetries = 2, an operation
whose verification fails on every attempt is tried exactly 2 times and then
gives up; there is no third try, contradicting the claimed
up-to-3-tries-including-the-first cap. -/
theorem c3_counterexample :
    open_services_manager (fun _ => some ⟨false, "low", "Services window is not open"⟩) 2
      = (false, 2) := by decide

/-- Claim C3 amended: each retried operation (open services manager,
open/verify server manager, run command, interactive run command — whose
loop also covers opening the run dialog) starts a fresh attempt counter at
1 on every invocation and performs at most maxRetries tries in total
including the first (so the default maxRetries = 2 allows up to 2 tries,
not 3), and at least one try happens whenever maxRetries is at least 1. -/
theorem c3_retry_bounds_amended (maxR : Nat) (hR : 1 ≤ maxR)
    (scS scV : Nat → Option Verdict) (scC scI : Nat → AttemptScript)
    (cmd : String) (st : AutoState) :
    (1 ≤ (open_services_manager scS maxR).2 ∧ (open_services_manager scS maxR).2 ≤ maxR) ∧
    (1 ≤ (open_server_manager scV maxR).2 ∧ (open_server_manager scV maxR).2 ≤ maxR) ∧
    (1 ≤ (run_powershell_command scC maxR).2 ∧ (run_powershell_command scC maxR).2 ≤ maxR) ∧
    (1 ≤ (run_powershell_interactive scI maxR cmd st).2.2 ∧
      (run_powershell_interactive scI maxR cmd st).2.2 ≤ maxR) := by
  have h0 : ¬ ((maxR == 0) = true) := by
    simp only [beq_iff_eq]
    omega
  refine ⟨?_, ?_, ?_, ?_⟩
  · simp only [open_services_manager, if_neg h0]
    exact open_services_manager_aux_bounds scS maxR hR maxR 1 (by omega) (by omega)
  · simp only [open_server_manager, if_neg h0]
    exact open_server_manager_aux_bounds scV maxR hR maxR 1 (by omega) (by omega)
  · simp only [run_powershell_command, if_neg h0]
    exact run_ps_command_aux_bounds scC maxR hR maxR 1 (by omega) (by omega)
  · simp only [run_powershell_interactive, if_neg h0]
    exact run_ps_interactive_aux_bounds scI maxR cmd hR maxR 1 st (by omega) (by omega)

/-- Witness for C3 amended, at the default maxRetries = 2. -/
theorem c3_retry_bounds_amended_witness :
    (1 ≤ (open_services_manager (fun _ => none) 2).2 ∧
      (open_services_manager (fun _ => none) 2).2 ≤ 2) ∧
    (1 ≤ (open_server_manager (fun _ => none) 2).2 ∧
      (open_server_manager (fun _ => none) 2).2 ≤ 2) ∧
    (1 ≤ (run_powershell_command (fun _ => ⟨none, none⟩) 2).2 ∧
      (run_powershell_command (fun _ => ⟨none, none⟩) 2).2 ≤ 2) ∧
    (1 ≤ (run_powershell_interactive (fun _ => ⟨none, none⟩) 2 "Get-Date" ⟨[], []⟩).2.2 ∧
      (run_powershell_interactive (fun _ => ⟨none, none⟩) 2 "Get-Date" ⟨[], []⟩).2.2 ≤ 2) :=
  c3_retry_bounds_amended 2 (by omega) (fun _ => none) (fun _ => none)
    (fun _ => ⟨none, none⟩) (fun _ => ⟨none, none⟩) "Get-Date" ⟨[], []⟩

/-- Claim C9: the login-screen polling loop sends the wake gesture exactly
on poll 1 and on every poll whose number is a multiple of 3; with an oracle
that first reports a login screen on poll N within the attempt budget
(max_attempts = timeout // 10), the loop confirms the login screen, stops
after exactly N polls, and the wake polls are exactly those k ≤ N with
k = 1 or k divisible by 3. -/
theorem c9_wake_cadence (sc : Nat → Option Verdict) (maxA N : Nat) (st : AutoState)
    (h1 : 1 ≤ N) (h2 : N ≤ maxA)
    (hneg : ∀ k, 1 ≤ k → k < N → ∃ v, sc k = some v ∧ v.verified = false)
    (hpos : ∃ v, sc N = some v ∧ v.verified = true) :
    (login_screen_wait sc maxA st).ready = true ∧
    (login_screen_wait sc maxA st).polls = N ∧
    ∀ k, k ∈ (login_screen_wait sc maxA st).wakes
      ↔ (1 ≤ k ∧ k ≤ N ∧ (k = 1 ∨ k % 3 = 0)) := by
  have h := login_wait_aux_first_success sc N hpos maxA 0 st (by omega) (by omega)
    (fun k hk1 hk2 => hneg k (by omega) hk2)
  refine ⟨h.1, h.2.1, ?_⟩
  intro k
  have hw : (login_screen_wait sc maxA st).wakes
      = (List.range' 1 (N - 0)).filter (fun k => k == 1 || k % 3 == 0) := h.2.2
  rw [hw]
  simp only [List.mem_filter, List.mem_range'_1, Nat.sub_zero, Bool.or_eq_true, beq_iff_eq,
    Nat.beq_eq_true_eq]
  omega

/-- Oracle script for the C9 witness: the login screen is first reported on
poll 4. -/
def login_poll_script : Nat → Option Verdict :=
  fun k => some ⟨k == 4, "high", "vnc console view"⟩

/-- Witness for C9: with the screen first reported on poll 4 of 6 allowed,
the loop confirms after exactly 4 polls, and poll 3 is a wake poll. -/
theorem c9_wake_cadence_witness :
    (login_screen_wait login_poll_script 6 ⟨[], []⟩).ready = true ∧
    (login_screen_wait login_poll_script 6 ⟨[], []⟩).polls = 4 ∧
    (3 ∈ (login_screen_wait login_poll_script 6 ⟨[], []⟩).wakes
      ↔ (1 ≤ 3 ∧ 3 ≤ 4 ∧ (3 = 1 ∨ 3 % 3 = 0))) := by
  have h := c9_wake_cadence login_poll_script 6 4 ⟨[], []⟩ (by omega) (by omega)
    (fun k hk1 hk2 => ⟨⟨k == 4, "high", "vnc console view"⟩, rfl, by
      simp only [beq_eq_false_iff_ne, ne_eq]
      omega⟩)
    ⟨⟨4 == 4, "high", "vnc console view"⟩, rfl, rfl⟩
  exact ⟨h.1, h.2.1, h.2.2 3⟩

/-- Oracle scripts of a run whose login succeeds immediately: the login
screen is confirmed on poll 1, field detection reports a password-only
layout, and the post-submit verdict is verified. -/
def demo_success_scripts : LoginScripts :=
  { has_llm := true
    login_screen := fun _ => some ⟨true, "high", "Windows login screen with password field"⟩
    fields := ⟨false, true, none, "password field visible"⟩
    fields_after_switch := ⟨false, true, none, "password field visible"⟩
    login_verify := some ⟨true, "high", "Desktop with taskbar"⟩ }

/-- Claim C10 counterexample: the orchestrator itself filters the
screenshot list for presentation — on a successful run the initial
connection screenshot is in the collected list but absent from the result
handed to reporting, so filtering does not happen only downstream of the
core. -/
theorem c10_counterexample :
    "01_novnc_connected"
      ∈ (perform_verification demo_success_scripts "Administrator" 60 []).1.screenshots ∧
    "01_novnc_connected"
      ∉ (perform_verification demo_success_scripts "Administrator" 60 []).2.screenshots ∧
    (perform_verification demo_success_scripts "Administrator" 60 []).2.screenshots
      ≠ (perform_verification demo_success_scripts "Administrator" 60 []).1.screenshots := by
  decide

/-- Claim C10 amended: screenshot records and action-log entries are only
ever appended — login_windows and run_powershell_interactive (the
operations the orchestrator invokes) extend the screenshot list and the
action log of any starting state, keeping every existing entry in place —
and the orchestrator returns the full action log; but the screenshot list
it returns is a filtered suffix of what was collected (the in-core
presentation filter of the orchestrator), with the underlying collection
left intact. -/
theorem c10_append_only_amended :
    (∀ (S : LoginScripts) (u : String) (w : Nat) (st : AutoState),
      st.screenshots <+: (login_windows S u w st).1.screenshots ∧
      st.action_log <+: (login_windows S u w st).1.action_log) ∧
    (∀ (sc : Nat → AttemptScript) (mr : Nat) (cmd : String) (st : AutoState),
      st.screenshots <+: (run_powershell_interactive sc mr cmd st).1.screenshots ∧
      st.action_log <+: (run_powershell_interactive sc mr cmd st).1.action_log) ∧
    (∀ (S : LoginScripts) (u : String) (w : Nat) (cmds : List PsCommand),
      (perform_verification S u w cmds).2.action_log
        = (perform_verification S u w cmds).1.action_log ∧
      (perform_verification S u w cmds).2.screenshots
        <:+ (perform_verification S u w cmds).1.screenshots) := by
  refine ⟨login_windows_grow, ?_, ?_⟩
  · intro sc mr cmd st
    cases hm : (mr == 0)
    · simp only [run_powershell_interactive, hm, Bool.false_eq_true, if_false]
      exact run_ps_interactive_aux_grow sc mr cmd mr 1 st
    · simp only [run_powershell_interactive, hm, if_true]
      exact ⟨List.prefix_rfl, List.prefix_rfl⟩
  · intro S u w cmds
    rcases hlw : login_windows S u w
        (wait_for_windows_desktop (connect_to_vm ⟨[], []⟩)) with ⟨st3, res⟩
    rcases res with e | uu
    · simp only [perform_verification, hlw]
      refine ⟨trivial, ?_⟩
      by_cases hsh : (include_from_first login_fail_shot st3.screenshots).isEmpty
      · simp only [hsh, if_true]
        exact List.suffix_rfl
      · simp only [hsh, Bool.false_eq_true, if_false]
        exact include_from_first_suffix login_fail_shot st3.screenshots
    · simp only [perform_verification, hlw]
      exact ⟨trivial, include_from_first_suffix success_shot _⟩

/-- Oracle scripts of a run whose login-screen oracle never reports
success. -/
def demo_timeout_scripts : LoginScripts :=
  { has_llm := true
    login_screen := fun _ => some ⟨false, "high", "Windows is still booting"⟩
    fields := ⟨false, true, none, "irrelevant"⟩
    fields_after_switch := ⟨false, true, none, "irrelevant"⟩
    login_verify := none }

/-- Claim C1 counterexample: a run whose login oracle never verifies within
a 20-second budget does end with success = false and login_failed = true,
but the result does not carry the screenshots collected so far: the
connection screenshot 01_novnc_connected was collected and is missing from
the returned list (the orchestrator keeps only the login-phase
screenshots). -/
theorem c1_counterexample :
    (run_verification demo_timeout_scripts "Administrator" 20 []).1.success = false ∧
    (run_verification demo_timeout_scripts "Administrator" 20 []).1.login_failed = true ∧
    "01_novnc_connected"
      ∈ (run_verification demo_timeout_scripts "Administrator" 20 []).2.1.screenshots ∧
    "01_novnc_connected"
      ∉ (run_verification demo_timeout_scripts "Administrator" 20 []).1.results.screenshots := by
  decide

/-- Claim C1 amended: for every run whose login-screen oracle never returns
a positive verdict within the configured timeout (at least one poll fits,
i.e. timeout // 10 is at least 1), the run terminates — the embedding is a
total function, matching the except clause of run_verification — with
success = false and login_failed = true; the result carries the full,
non-empty action log and a non-empty suffix of the screenshots collected so
far (those from the first login-phase screenshot onward — the earlier
connection and boot screenshots are filtered out, per the C1
counterexample); and VM teardown runs exactly once. -/
theorem c1_login_timeout_amended (S : LoginScripts) (u : String) (timeout : Nat)
    (cmds : List PsCommand)
    (hllm : S.has_llm = true)
    (ht : 1 ≤ timeout / 10)
    (hneg : ∀ k, 1 ≤ k → k ≤ timeout / 10 →
      ∃ v, S.login_screen k = some v ∧ v.verified = false) :
    (run_verification S u timeout cmds).1.success = false ∧
    (run_verification S u timeout cmds).1.login_failed = true ∧
    (run_verification S u timeout cmds).1.results.action_log
      = (run_verification S u timeout cmds).2.1.action_log ∧
    (run_verification S u timeout cmds).1.results.action_log ≠ [] ∧
    (run_verification S u timeout cmds).1.results.screenshots ≠ [] ∧
    (run_verification S u timeout cmds).1.results.screenshots
      <:+ (run_verification S u timeout cmds).2.1.screenshots ∧
    (run_verification S u timeout cmds).2.2 = 1 := by
  obtain ⟨m, hm⟩ : ∃ m, timeout / 10 = m + 1 := ⟨timeout / 10 - 1, by omega⟩
  have hneg' : ∀ k, 1 ≤ k → k ≤ m + 1 →
      ∃ v, (fun k => if S.has_llm then S.login_screen k else none) k = some v
        ∧ v.verified = false := by
    intro k hk1 hk2
    simp only [hllm, if_true]
    exact hneg k hk1 (by omega)
  have htim := login_screen_wait_timeout
    (fun k => if S.has_llm then S.login_screen k else none) m
    (wait_for_windows_desktop (connect_to_vm ⟨[], []⟩)) hneg'
  have hlw : login_windows S u timeout
      (wait_for_windows_desktop (connect_to_vm ⟨[], []⟩))
      = ((login_screen_wait (fun k => if S.has_llm then S.login_screen k else none)
          (m + 1) (wait_for_windows_desktop (connect_to_vm ⟨[], []⟩))).state,
         .error "Login screen did not appear - cannot proceed with verification") := by
    simp only [login_windows, hm, htim.1, Bool.not_false, if_true]
  refine ⟨?_, ?_, ?_, ?_, ?_, ?_, ?_⟩
  · simp only [run_verification, perform_verification, hlw, if_true]
  · simp only [run_verification, perform_verification, hlw, if_true]
  · simp only [run_verification, perform_verification, hlw, if_true]
  · simp only [run_verification, perform_verification, hlw, if_true]
    exact htim.2.1
  · simp only [run_verification, perform_verification, hlw, if_true]
    by_cases hsh : (include_from_first login_fail_shot
        (login_screen_wait (fun k => if S.has_llm then S.login_screen k else none)
          (m + 1) (wait_for_windows_desktop (connect_to_vm ⟨[], []⟩))).state.screenshots).isEmpty
    · simp only [hsh, if_true]
      exact htim.2.2
    · simp only [hsh, Bool.false_eq_true, if_false]
      intro hc
      rw [hc] at hsh
      exact hsh rfl
  · simp only [run_verification, perform_verification, hlw, if_true]
    by_cases hsh : (include_from_first login_fail_shot
        (login_screen_wait (fun k => if S.has_llm then S.login_screen k else none)
          (m + 1) (wait_for_windows_desktop (connect_to_vm ⟨[], []⟩))).state.screenshots).isEmpty
    · simp only [hsh, if_true]
      exact List.suffix_rfl
    · simp only [hsh, Bool.false_eq_true, if_false]
      exact include_from_first_suffix login_fail_shot _
  · simp only [run_verification]

/-- Witness for C1 amended, at the concrete never-verified scripts and a
20-second login-screen budget. -/
theorem c1_login_timeout_amended_witness :
    (run_verification demo_timeout_scripts "admin" 20 []).1.success = false ∧
    (run_verification demo_timeout_scripts "admin" 20 []).1.login_failed = true ∧
    (run_verification demo_timeout_scripts "admin" 20 []).1.results.action_log
      = (run_verification demo_timeout_scripts "admin" 20 []).2.1.action_log ∧
    (run_verification demo_timeout_scripts "admin" 20 []).1.results.action_log ≠ [] ∧
    (run_verification demo_timeout_scripts "admin" 20 []).1.results.screenshots ≠ [] ∧
    (run_verification demo_timeout_scripts "admin" 20 []).1.results.screenshots
      <:+ (run_verification demo_timeout_scripts "admin" 20 []).2.1.screenshots ∧
    (run_verification demo_timeout_scripts "admin" 20 []).2.2 = 1 :=
  c1_login_timeout_amended demo_timeout_scripts "admin" 20 [] rfl (by omega)
    (fun k hk1 hk2 => ⟨⟨false, "high", "Windows is still booting"⟩, rfl, rfl⟩)

end SliderVerify
